import Mathlib

/-!
Shallow embedding of the D3Engineering 410c camera support application
(`opengles_capture/capture.c`) and proofs about its buffer lifecycle,
capture/render loop, and device-control state machines.

Conventions of the embedding:
* C `int` values are modelled as `Int`; array indices and counts as `Nat`.
* The results of external kernel calls (`ioctl`, `mmap`, `open`, ...) are
  supplied by an environment record `Env`; the functions below mirror the
  C control flow over those oracle results.
* Observable side effects (ioctl requests, `munmap`, `close`, ...) are
  collected in an event trace (`List Ev`).
* `exit()` inside the C code is modelled by the `Outcome.exited` result,
  distinguished from a normal `return` (`Outcome.ret`).
-/

namespace CaptureModel

/-! ## Constants from `capture.h` and the V4L2 kernel headers -/

/-- Focus state `IDLE_FOCUS` (first member of the anonymous enum in capture.h). -/
def IDLE_FOCUS : Int := 0

/-- Focus state `AUTO_FOCUS_ENABLED`. -/
def AUTO_FOCUS_ENABLED : Int := 1

/-- Focus state `SINGLE_FOCUS_START`. -/
def SINGLE_FOCUS_START : Int := 2

/-- Focus state `FOCUS_PAUSE`. -/
def FOCUS_PAUSE : Int := 3

/-- V4L2 control id `V4L2_CID_FOCUS_AUTO` (camera class base + 12). -/
def V4L2_CID_FOCUS_AUTO : Nat := 0x009a090c

/-- V4L2 control id `V4L2_CID_AUTO_FOCUS_START` (camera class base + 28). -/
def V4L2_CID_AUTO_FOCUS_START : Nat := 0x009a091c

/-- V4L2 control id `V4L2_CID_3A_LOCK` (camera class base + 27). -/
def V4L2_CID_3A_LOCK : Nat := 0x009a091b

/-- V4L2 flag `V4L2_LOCK_FOCUS` (1 << 2). -/
def V4L2_LOCK_FOCUS : Int := 4

/-- V4L2 control id `V4L2_CID_TEST_PATTERN` (image-proc class base + 3). -/
def V4L2_CID_TEST_PATTERN : Nat := 0x009f0903

/-- The C `MAP_FAILED` sentinel `(void *)-1`, as an address value. -/
def MAP_FAILED : Int := -1

/-! ## Device control state machine (`focus_state`, capture.c lines 502-607) -/

/-- A `struct v4l2_control` payload: control id and value. -/
structure Ctrl where
  id : Nat
  value : Int
deriving DecidableEq, Repr

/-- Result of the `switch` statement inside `focus_state`: the committed
in-memory focus state, and the assignment performed to the local `ctrl`
variable (`none` when no branch assigned it, i.e. `ctrl` stays uninitialized). -/
structure FocusStep where
  state : Int
  ctrl : Option Ctrl
deriving DecidableEq, Repr

/-- The `switch (cap->app.focus_state)` body of `focus_state`
(capture.c lines 506-603), translated branch by branch. -/
def focus_switch (s new_state : Int) : FocusStep :=
  if s = IDLE_FOCUS then
    if new_state = AUTO_FOCUS_ENABLED then
      ⟨AUTO_FOCUS_ENABLED, some ⟨V4L2_CID_FOCUS_AUTO, 1⟩⟩
    else if new_state = SINGLE_FOCUS_START then
      ⟨SINGLE_FOCUS_START, some ⟨V4L2_CID_AUTO_FOCUS_START, 1⟩⟩
    else ⟨s, none⟩
  else if s = AUTO_FOCUS_ENABLED then
    if new_state = AUTO_FOCUS_ENABLED then
      ⟨IDLE_FOCUS, some ⟨V4L2_CID_FOCUS_AUTO, 0⟩⟩
    else if new_state = FOCUS_PAUSE then
      ⟨FOCUS_PAUSE, some ⟨V4L2_CID_3A_LOCK, V4L2_LOCK_FOCUS⟩⟩
    else if new_state = SINGLE_FOCUS_START then
      ⟨SINGLE_FOCUS_START, some ⟨V4L2_CID_AUTO_FOCUS_START, 1⟩⟩
    else ⟨s, none⟩
  else if s = SINGLE_FOCUS_START then
    if new_state = SINGLE_FOCUS_START then
      ⟨SINGLE_FOCUS_START, some ⟨V4L2_CID_AUTO_FOCUS_START, 1⟩⟩
    else if new_state = FOCUS_PAUSE then
      ⟨FOCUS_PAUSE, some ⟨V4L2_CID_3A_LOCK, V4L2_LOCK_FOCUS⟩⟩
    else if new_state = AUTO_FOCUS_ENABLED then
      ⟨AUTO_FOCUS_ENABLED, some ⟨V4L2_CID_FOCUS_AUTO, 1⟩⟩
    else ⟨s, none⟩
  else if s = FOCUS_PAUSE then
    if new_state = AUTO_FOCUS_ENABLED then
      ⟨AUTO_FOCUS_ENABLED, some ⟨V4L2_CID_FOCUS_AUTO, 1⟩⟩
    else if new_state = SINGLE_FOCUS_START then
      ⟨SINGLE_FOCUS_START, some ⟨V4L2_CID_AUTO_FOCUS_START, 1⟩⟩
    else ⟨s, none⟩
  else
    -- default: any unrecognized current state resets to IDLE_FOCUS,
    -- `ctrl` is left unassigned.
    ⟨IDLE_FOCUS, none⟩

/-- One full call of `focus_state`: committed in-memory state, the payload
handed to `VIDIOC_S_CTRL` (`none` = the uninitialized local `ctrl`), whether
the `ioctl` at line 604 ran (it is unconditional in the source), and the
function's return value (the `ioctl` result, supplied here as `dev_ret`). -/
structure FocusCall where
  state : Int
  issued : Option Ctrl
  ioctl_issued : Bool
  ret : Int
deriving DecidableEq, Repr

/-- `focus_state` (capture.c lines 502-607).  After the `switch`, the
`VIDIOC_S_CTRL` ioctl is executed unconditionally on whatever `ctrl` holds;
`dev_ret` is the device's answer to that request. -/
def focus_state (s new_state : Int) (dev_ret : Int) : FocusCall :=
  let st := focus_switch s new_state
  ⟨st.state, st.ctrl, true, dev_ret⟩

/-! ## Test pattern control (`test_pattern`, capture.c lines 466-491) -/

/-- The cycle update `(t + 1) % 4`, mapping a wrap to 0 back to 1.
C `%` on `int` is truncated division remainder, hence `Int.tmod`. -/
def test_cycle (t : Int) : Int :=
  let u := (t + 1).tmod 4
  if u = 0 then 1 else u

/-- Result of one `test_pattern` call: committed test-pattern state, the
control payload sent, and the returned `ioctl` result. -/
structure TestCall where
  test_state : Int
  issued : Ctrl
  ret : Int
deriving DecidableEq, Repr

/-- `test_pattern` (capture.c lines 466-491): nonzero `state` requests a
cycle step, zero requests live view; the new state is committed to
`cap->app.test_state` and then sent as `V4L2_CID_TEST_PATTERN`. -/
def test_pattern (t : Int) (state : Int) (dev_ret : Int) : TestCall :=
  let t' := if state ≠ 0 then test_cycle t else 0
  ⟨t', ⟨V4L2_CID_TEST_PATTERN, t'⟩, dev_ret⟩

/-! ## Keyboard handler (`do_key_event`, capture.c lines 630-659) -/

/-- The `struct application_state` of capture.h. -/
structure AppState where
  focus_state : Int
  test_state : Int
deriving DecidableEq, Repr

/-- Observable result of a `do_key_event` call: the application state after
the call and the list of `VIDIOC_S_CTRL` payloads issued to the subdevice
(`none` = request issued with the uninitialized `ctrl` local). -/
structure KeyOut where
  app : AppState
  issued : List (Option Ctrl)
deriving DecidableEq, Repr

/-- `do_key_event` (capture.c lines 630-659): acts only when `num_keys == 1`,
dispatching on `keys[0]`.  The `keys` list holds the `num_keys` valid
elements of the C array.  Key 1 of `test_pattern` is the literal argument
used for 't'; 0 for 'l'. -/
def do_key_event (keys : List Char) (app : AppState) : KeyOut :=
  match keys with
  | [c] =>
    if c = 'h' then ⟨app, []⟩   -- print_key_functions(): log output only
    else if c = 'a' then
      let f := focus_state app.focus_state AUTO_FOCUS_ENABLED 0
      ⟨{ app with focus_state := f.state }, [f.issued]⟩
    else if c = 'f' then
      let f := focus_state app.focus_state SINGLE_FOCUS_START 0
      ⟨{ app with focus_state := f.state }, [f.issued]⟩
    else if c = 'p' then
      let f := focus_state app.focus_state FOCUS_PAUSE 0
      ⟨{ app with focus_state := f.state }, [f.issued]⟩
    else if c = 't' then
      let tp := test_pattern app.test_state 1 0
      ⟨{ app with test_state := tp.test_state }, [some tp.issued]⟩
    else if c = 'l' then
      let tp := test_pattern app.test_state 0 0
      ⟨{ app with test_state := tp.test_state }, [some tp.issued]⟩
    else ⟨app, []⟩              -- default: no action
  | _ => ⟨app, []⟩              -- num_keys != 1: the handler does nothing

/-! ## Capture context and event traces -/

/-- The parts of `struct capture_context` the buffer lifecycle observes:
granted pool size, plane count, and the per-buffer / per-plane DMA file
descriptors, mapped addresses (`0` = NULL, `MAP_FAILED` = -1) and mapped
lengths.  The static arrays are modelled as total functions over indices. -/
structure CapCtx where
  num_buf : Nat
  num_planes : Nat
  dma_buf_fd : Nat → Nat → Int
  addr : Nat → Nat → Int
  length : Nat → Nat → Nat

/-- Observable external actions performed by the capture code. -/
inductive Ev
  | close_fd (fd : Int)
  | munmap (a : Int) (len : Nat)
  | reqbufs (count : Nat)
  | s_fmt
  | querybuf (i : Nat)
  | mmap_call (i p : Nat)
  | expbuf (i p : Nat)
  | qbuf (i : Nat)
  | streamon
  | streamoff
  | dqbuf (i : Nat)
  | draw (r : Int)
  | render_setup
deriving DecidableEq, Repr

/-- Oracle for the results of all external calls made by the capture code.
Per-buffer / per-plane results are indexed functions; per-iteration results
of the steady-state loop are indexed by the iteration counter. -/
structure Env where
  s_fmt_ret : Int
  reqbufs_ret : Int
  granted : Nat
  querybuf_ret : Nat → Int
  plane_len : Nat → Nat → Nat
  mmap_addr : Nat → Nat → Int
  expbuf_ret : Nat → Nat → Int
  expbuf_fd : Nat → Nat → Int
  qbuf_ret : Nat → Int
  streamon_ret : Int
  streamoff_ret : Int
  reqbufs_zero_ret : Int
  errno : Nat
  device_fd : Int
  has_mplane : Bool
  has_streaming : Bool
  subdev_fd : Int
  setup_disp_ret : Int
  quit : Nat → Bool
  dq_ret : Nat → Int
  dq_idx : Nat → Nat
  draw_ret : Nat → Int
  requeue_ret : Nat → Int

/-! ## `unmap_buffers` (capture.c lines 106-145) -/

/-- The body of the inner loop of `unmap_buffers` for one `(i, p)` pair:
close the DMA descriptor if it is nonnegative (and invalidate it), then
`munmap` the plane if its recorded address is neither NULL nor `MAP_FAILED`.
Note the source never resets `addr` after `munmap`; neither does the model. -/
def unmap_plane (cap : CapCtx) (i p : Nat) : CapCtx × List Ev :=
  let st :=
    if cap.dma_buf_fd i p ≥ 0 then
      ({ cap with dma_buf_fd := fun i' p' =>
          if i' = i ∧ p' = p then -1 else cap.dma_buf_fd i' p' },
       [Ev.close_fd (cap.dma_buf_fd i p)])
    else (cap, ([] : List Ev))
  if st.1.addr i p ≠ 0 ∧ st.1.addr i p ≠ MAP_FAILED then
    -- the munmap return value is overwritten by the final REQBUFS ioctl
    (st.1, st.2 ++ [Ev.munmap (st.1.addr i p) (st.1.length i p)])
  else st

/-- The `(i, p)` iteration order of the nested loops in `unmap_buffers`:
`i` over `0..num_buf-1`, `p` over `0..num_planes-1`. -/
def planePairs (cap : CapCtx) : List (Nat × Nat) :=
  (List.range cap.num_buf).flatMap fun i =>
    (List.range cap.num_planes).map fun p => (i, p)

/-- `unmap_buffers` (capture.c lines 106-145): run `unmap_plane` over every
`(i, p)` pair, then issue a zero-count `VIDIOC_REQBUFS`; the function's
return value is that final ioctl's result. -/
def unmap_buffers (env : Env) (cap : CapCtx) : CapCtx × List Ev × Int :=
  let r := (planePairs cap).foldl
    (fun acc ip =>
      let s := unmap_plane acc.1 ip.1 ip.2
      (s.1, acc.2 ++ s.2))
    (cap, ([] : List Ev))
  (r.1, r.2 ++ [Ev.reqbufs 0], env.reqbufs_zero_ret)

/-! ## `map_buffers` (capture.c lines 153-208) -/

/-- Early-return plumbing: `some v` means the C function executed
`return v` inside the loop; `none` means the loop body completed. -/
def LoopExit := Option Int

/-- Inner per-plane loop of `map_buffers` for buffer `i`: record the plane
length, `mmap` the plane (storing the result, `MAP_FAILED` on failure, into
`addr` before checking it), and optionally export a DMA descriptor.
The third component is `some v` when the C code returned `v` early. -/
def map_planes (env : Env) (cap : CapCtx) (dma_export : Bool) (i : Nat) :
    List Nat → List Ev → CapCtx × List Ev × Option Int
  | [], evs => (cap, evs, none)
  | p :: rest, evs =>
    let cap := { cap with
      length := fun i' p' => if i' = i ∧ p' = p then env.plane_len i p else cap.length i' p',
      addr := fun i' p' => if i' = i ∧ p' = p then env.mmap_addr i p else cap.addr i' p' }
    let evs := evs ++ [Ev.mmap_call i p]
    if env.mmap_addr i p = MAP_FAILED then
      (cap, evs, some (-(env.errno : Int)))
    else if dma_export then
      let evs := evs ++ [Ev.expbuf i p]
      if env.expbuf_ret i p < 0 then
        (cap, evs, some (-(env.errno : Int)))
      else
        let cap := { cap with dma_buf_fd := fun i' p' =>
          if i' = i ∧ p' = p then env.expbuf_fd i p else cap.dma_buf_fd i' p' }
        map_planes env cap dma_export i rest evs
    else
      map_planes env cap dma_export i rest evs

/-- Outer per-buffer loop of `map_buffers`: query the buffer (the copy of the
driver-reported metadata into `v4l2buf` is display-only and not modelled),
then map its planes; any early return propagates out of the function. -/
def map_bufs_loop (env : Env) (cap : CapCtx) (dma_export : Bool) :
    List Nat → List Ev → CapCtx × List Ev × Int
  | [], evs => (cap, evs, 0)
  | i :: rest, evs =>
    let evs := evs ++ [Ev.querybuf i]
    if env.querybuf_ret i < 0 then (cap, evs, env.querybuf_ret i)
    else
      let r := map_planes env cap dma_export i (List.range cap.num_planes) evs
      match r.2.2 with
      | some v => (r.1, r.2.1, v)
      | none => map_bufs_loop env r.1 dma_export rest r.2.1

/-- `map_buffers` (capture.c lines 153-208). -/
def map_buffers (env : Env) (cap : CapCtx) (dma_export : Bool) :
    CapCtx × List Ev × Int :=
  map_bufs_loop env cap dma_export (List.range cap.num_buf) []

/-! ## `queue_buffers`, `start_stream`, `stop_stream`, `capture_shutdown` -/

/-- Loop of `queue_buffers` (capture.c lines 218-231): queue each buffer,
breaking on the first negative ioctl result; the last ioctl result (or the
initial 0 for an empty pool) is returned. -/
def queue_loop (env : Env) : List Nat → List Ev → Int → List Ev × Int
  | [], evs, ret => (evs, ret)
  | i :: rest, evs, _ =>
    let evs := evs ++ [Ev.qbuf i]
    if env.qbuf_ret i < 0 then (evs, env.qbuf_ret i)
    else queue_loop env rest evs (env.qbuf_ret i)

/-- `queue_buffers` (capture.c lines 218-231). -/
def queue_buffers (env : Env) (count : Nat) : List Ev × Int :=
  queue_loop env (List.range count) [] 0

/-- `capture_shutdown` (capture.c lines 378-382): stop the stream, then
unmap and release the buffers; returns the `unmap_buffers` result. -/
def capture_shutdown (env : Env) (cap : CapCtx) : CapCtx × List Ev × Int :=
  let u := unmap_buffers env cap
  (u.1, Ev.streamoff :: u.2.1, u.2.2)

/-- Trace emitted by one `capture_shutdown` call from state `cap`. -/
def shutdownTrace (env : Env) (cap : CapCtx) : List Ev :=
  (capture_shutdown env cap).2.1

/-! ## `capture_setup` (capture.c lines 391-455) and `capture_and_display` -/

/-- How a modelled function ended: a normal `return code`, or the process
terminating via `exit(code)` from inside the function. -/
inductive Outcome
  | ret (code : Int)
  | exited (code : Int)
deriving DecidableEq, Repr

/-- Context after the format negotiation at the top of `capture_setup`:
the NV12M format fixes `num_planes` to 2. -/
def fmtCtx (cap : CapCtx) : CapCtx :=
  { cap with num_planes := 2 }

/-- Context after the `VIDIOC_REQBUFS` grant in `capture_setup`: the
granted count is saved as the pool size and the DMA descriptors of the
granted buffers' planes are preset to the invalid value -1. -/
def grantCtx (env : Env) (cap : CapCtx) : CapCtx :=
  { cap with
    num_buf := env.granted,
    dma_buf_fd := fun i p =>
      if i < env.granted ∧ p < 2 then -1 else cap.dma_buf_fd i p }

/-- `capture_setup` (capture.c lines 391-455).  `VIDIOC_S_FMT` and
`VIDIOC_REQBUFS` failures call `exit(-errno)` directly; map and queue
failures jump to the `cleanup` label which runs `capture_shutdown`;
a `VIDIOC_STREAMON` failure is returned to the caller without cleanup. -/
def capture_setup (env : Env) (cap : CapCtx) (buffer_count : Nat)
    (dma_export : Bool) : Outcome × CapCtx × List Ev :=
  let cap := fmtCtx cap
  let evs := [Ev.s_fmt]
  if env.s_fmt_ret < 0 then (Outcome.exited (-(env.errno : Int)), cap, evs)
  else
    let evs := evs ++ [Ev.reqbufs buffer_count]
    if env.reqbufs_ret < 0 then (Outcome.exited (-(env.errno : Int)), cap, evs)
    else
      -- save the granted count; preset the DMA descriptors to invalid
      let cap := grantCtx env cap
      let m := map_buffers env cap dma_export
      if m.2.2 ≠ 0 then
        let s := capture_shutdown env m.1
        (Outcome.ret m.2.2, s.1, evs ++ m.2.1 ++ s.2.1)
      else
        let q := queue_buffers env m.1.num_buf
        if q.2 ≠ 0 then
          let s := capture_shutdown env m.1
          (Outcome.ret q.2, s.1, evs ++ m.2.1 ++ q.1 ++ s.2.1)
        else
          (Outcome.ret env.streamon_ret, m.1, evs ++ m.2.1 ++ q.1 ++ [Ev.streamon])

/-- Steady-state loop of `capture_display_yuv` (capture.c lines 290-318),
with the iteration counter `k` indexing the per-iteration oracle results and
`fuel` bounding the number of unfoldings (`none` = fuel exhausted).
`ret` is the C `ret` variable at the loop condition; `signal_quit` at
iteration `k` is `env.quit k`.  On loop exit the function returns 0. -/
def cdy_loop (env : Env) (cap : CapCtx) (k fuel : Nat) (ret : Int)
    (evs : List Ev) : Option (Int × List Ev) :=
  match fuel with
  | 0 => none
  | fuel + 1 =>
    if ret ≠ 0 ∨ env.quit k = true then some (0, evs)
    else
      let evs := evs ++ [Ev.dqbuf (env.dq_idx k)]
      if env.dq_ret k < 0 then some ((env.errno : Int), evs)
      else
        let r := env.draw_ret k
        let evs := evs ++ [Ev.draw r]
        if r < 0 then some ((env.errno : Int), evs)
        else if r > 0 then some (0, evs)
        else
          -- requeue the buffer just drawn; its index is still in `buf`
          cdy_loop env cap (k + 1) fuel (env.requeue_ret k)
            (evs ++ [Ev.qbuf (env.dq_idx k)])

/-- `capture_display_yuv` (capture.c lines 262-320): prime the renderer with
buffer 0's plane addresses, run the one-time display setup, then enter the
dequeue/draw/requeue loop. -/
def capture_display_yuv (env : Env) (cap : CapCtx) (fuel : Nat) :
    Option (Int × List Ev) :=
  if env.setup_disp_ret ≠ 0 then some (-1, [Ev.render_setup])
  else
    match cdy_loop env cap 0 fuel 0 [] with
    | none => none
    | some r => some (r.1, Ev.render_setup :: r.2)

/-- `get_device` (capture.c lines 346-367): open plus capability checks. -/
def get_device (env : Env) : Int :=
  if env.device_fd < 0 then -1
  else if env.has_mplane = false then -1
  else if env.has_streaming = false then -1
  else env.device_fd

/-- `get_subdevice` (capture.c lines 328-337). -/
def get_subdevice (env : Env) : Int :=
  if env.subdev_fd < 0 then -1 else env.subdev_fd

/-- `capture_and_display` (capture.c lines 670-720): open devices (exiting
the process on failure), run `capture_setup`, and on any nonzero setup
result run `capture_shutdown` and return; otherwise run the display loop
and then unconditionally run `capture_shutdown`. -/
def capture_and_display (env : Env) (cap : CapCtx) (buffer_count : Nat)
    (dma_export : Bool) (fuel : Nat) : Option (Outcome × CapCtx × List Ev) :=
  if get_device env < 0 then some (Outcome.exited 1, cap, [])
  else if get_subdevice env < 0 then some (Outcome.exited 1, cap, [])
  else
    let s := capture_setup env cap buffer_count dma_export
    match s.1 with
    | Outcome.exited c => some (Outcome.exited c, s.2.1, s.2.2)
    | Outcome.ret r =>
      if r ≠ 0 then
        let sh := capture_shutdown env s.2.1
        some (Outcome.ret r, sh.1, s.2.2 ++ sh.2.1)
      else
        match capture_display_yuv env s.2.1 fuel with
        | none => none
        | some dr =>
          let sh := capture_shutdown env s.2.1
          some (Outcome.ret dr.1, sh.1, s.2.2 ++ dr.2 ++ sh.2.1)

/-! ## Signal handler (`signal_exit`, capture.c lines 95-99) -/

/-- Process-global state visible to the signal handler: the `signal_quit`
flag and the capture context (buffer pool and device state). -/
structure Prog where
  signal_quit : Bool
  cap : CapCtx

/-- `signal_exit` (capture.c lines 95-99): sets the flag, nothing else. -/
def signal_exit (g : Prog) : Prog :=
  { g with signal_quit := true }

/-! ## Claim theorems for the control state machines -/

/-- C1: the ten defined (state, command) pairs of `focus_state` produce
exactly the next state and control value of the spec's transition table;
but for the undefined pairs (Idle, RequestPause) and (FocusPause,
RequestPause) the code, while leaving the state unchanged, still executes
the `VIDIOC_S_CTRL` ioctl at capture.c line 604 with the never-assigned
local `ctrl` (garbage id and value), contradicting the claim that no
control request is sent there. -/
theorem focus_table_matches_but_undefined_pairs_send_garbage_ioctl :
    ((focus_state IDLE_FOCUS AUTO_FOCUS_ENABLED 0).state = AUTO_FOCUS_ENABLED ∧
     (focus_state IDLE_FOCUS AUTO_FOCUS_ENABLED 0).issued = some ⟨V4L2_CID_FOCUS_AUTO, 1⟩) ∧
    ((focus_state IDLE_FOCUS SINGLE_FOCUS_START 0).state = SINGLE_FOCUS_START ∧
     (focus_state IDLE_FOCUS SINGLE_FOCUS_START 0).issued = some ⟨V4L2_CID_AUTO_FOCUS_START, 1⟩) ∧
    ((focus_state AUTO_FOCUS_ENABLED AUTO_FOCUS_ENABLED 0).state = IDLE_FOCUS ∧
     (focus_state AUTO_FOCUS_ENABLED AUTO_FOCUS_ENABLED 0).issued = some ⟨V4L2_CID_FOCUS_AUTO, 0⟩) ∧
    ((focus_state AUTO_FOCUS_ENABLED SINGLE_FOCUS_START 0).state = SINGLE_FOCUS_START ∧
     (focus_state AUTO_FOCUS_ENABLED SINGLE_FOCUS_START 0).issued = some ⟨V4L2_CID_AUTO_FOCUS_START, 1⟩) ∧
    ((focus_state AUTO_FOCUS_ENABLED FOCUS_PAUSE 0).state = FOCUS_PAUSE ∧
     (focus_state AUTO_FOCUS_ENABLED FOCUS_PAUSE 0).issued = some ⟨V4L2_CID_3A_LOCK, V4L2_LOCK_FOCUS⟩) ∧
    ((focus_state SINGLE_FOCUS_START AUTO_FOCUS_ENABLED 0).state = AUTO_FOCUS_ENABLED ∧
     (focus_state SINGLE_FOCUS_START AUTO_FOCUS_ENABLED 0).issued = some ⟨V4L2_CID_FOCUS_AUTO, 1⟩) ∧
    ((focus_state SINGLE_FOCUS_START SINGLE_FOCUS_START 0).state = SINGLE_FOCUS_START ∧
     (focus_state SINGLE_FOCUS_START SINGLE_FOCUS_START 0).issued = some ⟨V4L2_CID_AUTO_FOCUS_START, 1⟩) ∧
    ((focus_state SINGLE_FOCUS_START FOCUS_PAUSE 0).state = FOCUS_PAUSE ∧
     (focus_state SINGLE_FOCUS_START FOCUS_PAUSE 0).issued = some ⟨V4L2_CID_3A_LOCK, V4L2_LOCK_FOCUS⟩) ∧
    ((focus_state FOCUS_PAUSE AUTO_FOCUS_ENABLED 0).state = AUTO_FOCUS_ENABLED ∧
     (focus_state FOCUS_PAUSE AUTO_FOCUS_ENABLED 0).issued = some ⟨V4L2_CID_FOCUS_AUTO, 1⟩) ∧
    ((focus_state FOCUS_PAUSE SINGLE_FOCUS_START 0).state = SINGLE_FOCUS_START ∧
     (focus_state FOCUS_PAUSE SINGLE_FOCUS_START 0).issued = some ⟨V4L2_CID_AUTO_FOCUS_START, 1⟩) ∧
    ((focus_state IDLE_FOCUS FOCUS_PAUSE 0).state = IDLE_FOCUS ∧
     (focus_state IDLE_FOCUS FOCUS_PAUSE 0).issued = none ∧
     (focus_state IDLE_FOCUS FOCUS_PAUSE 0).ioctl_issued = true) ∧
    ((focus_state FOCUS_PAUSE FOCUS_PAUSE 0).state = FOCUS_PAUSE ∧
     (focus_state FOCUS_PAUSE FOCUS_PAUSE 0).issued = none ∧
     (focus_state FOCUS_PAUSE FOCUS_PAUSE 0).ioctl_issued = true) := by
  decide

/-- C7: both control operations commit their in-memory state before the
control request is issued, and neither the committed state nor the issued
payload depends on the device's answer `r` to that request (no rollback on
failure): the focus state and payload equal the `switch` result regardless
of `r`, and the test-pattern payload value is exactly the already-committed
new `test_state`. -/
theorem control_state_commits_before_request_and_never_rolls_back
    (s cmd r t st rt : Int) :
    (focus_state s cmd r).state = (focus_switch s cmd).state ∧
    (focus_state s cmd r).issued = (focus_switch s cmd).ctrl ∧
    (focus_state s cmd r).state = (focus_state s cmd 0).state ∧
    (focus_state s cmd r).ret = r ∧
    (test_pattern t st rt).test_state = (test_pattern t st 0).test_state ∧
    (test_pattern t st rt).issued.value = (test_pattern t st rt).test_state ∧
    (test_pattern t st rt).ret = rt :=
  ⟨rfl, rfl, rfl, rfl, rfl, rfl, rfl⟩

/-- C8: from live view (0), consecutive cycle requests (any nonzero `state`
argument) visit 1, 2, 3 and then wrap back to 1; a cycle request never
yields state 0 from any starting value; and a live request (`state` 0)
from any starting value commits state 0. -/
theorem test_pattern_cycles_1_2_3_and_live_resets
    (st : Int) (hst : st ≠ 0) (t r : Int) :
    (test_pattern 0 st r).test_state = 1 ∧
    (test_pattern 1 st r).test_state = 2 ∧
    (test_pattern 2 st r).test_state = 3 ∧
    (test_pattern 3 st r).test_state = 1 ∧
    (test_pattern t st r).test_state ≠ 0 ∧
    (test_pattern t 0 r).test_state = 0 := by
  have hcyc : ∀ u : Int, test_cycle u ≠ 0 := by
    intro u
    unfold test_cycle
    by_cases h : (u + 1).tmod 4 = 0
    · simp [h]
    · simp [h]
  refine ⟨?_, ?_, ?_, ?_, ?_, ?_⟩
  · simp only [test_pattern, if_pos hst]; decide
  · simp only [test_pattern, if_pos hst]; decide
  · simp only [test_pattern, if_pos hst]; decide
  · simp only [test_pattern, if_pos hst]; decide
  · simp only [test_pattern, if_pos hst]; exact hcyc t
  · simp [test_pattern]

/-- C8 witness: the cycling theorem applied at `st = 1`, `t = 5`, `r = 0`. -/
theorem test_pattern_cycles_witness :
    (test_pattern 0 1 0).test_state = 1 ∧
    (test_pattern 1 1 0).test_state = 2 ∧
    (test_pattern 2 1 0).test_state = 3 ∧
    (test_pattern 3 1 0).test_state = 1 ∧
    (test_pattern 5 1 0).test_state ≠ 0 ∧
    (test_pattern 5 0 0).test_state = 0 :=
  test_pattern_cycles_1_2_3_and_live_resets 1 (by decide) 5 0

/-- C10: `do_key_event` acts only on events with exactly one key: for any
key list whose length is not 1, and for any single key outside
h, a, f, p, t, l, the application state (focus and test-pattern) is
unchanged and no control request is issued. -/
theorem key_event_acts_only_on_recognized_single_keys
    (keys : List Char) (c : Char) (app : AppState)
    (hk : keys.length ≠ 1)
    (hc : c ∉ (['h', 'a', 'f', 'p', 't', 'l'] : List Char)) :
    do_key_event keys app = ⟨app, []⟩ ∧ do_key_event [c] app = ⟨app, []⟩ := by
  constructor
  · cases keys with
    | nil => rfl
    | cons x t =>
      cases t with
      | nil => exact absurd rfl hk
      | cons y u => rfl
  · simp only [List.mem_cons, List.not_mem_nil, or_false, not_or] at hc
    obtain ⟨h1, h2, h3, h4, h5, h6⟩ := hc
    simp [do_key_event, h1, h2, h3, h4, h5, h6]

/-- C10 witness: the guard theorem applied at the two-key event
['x', 'y'] and at the unrecognized single key 'z'. -/
theorem key_event_guard_witness :
    do_key_event ['x', 'y'] ⟨AUTO_FOCUS_ENABLED, 0⟩ = ⟨⟨AUTO_FOCUS_ENABLED, 0⟩, []⟩ ∧
    do_key_event ['z'] ⟨AUTO_FOCUS_ENABLED, 0⟩ = ⟨⟨AUTO_FOCUS_ENABLED, 0⟩, []⟩ :=
  key_event_acts_only_on_recognized_single_keys ['x', 'y'] 'z'
    ⟨AUTO_FOCUS_ENABLED, 0⟩ (by decide) (by decide)

/-! ## Claim theorems for the buffer pool teardown -/

/-- An environment in which every external call succeeds: mmap hands out
address `1000 + 10*i + p` for buffer `i`, plane `p`; the device grants 4
buffers; `errno` would read 5 after a failing call. -/
def envOk : Env where
  s_fmt_ret := 0
  reqbufs_ret := 0
  granted := 4
  querybuf_ret := fun _ => 0
  plane_len := fun _ _ => 100
  mmap_addr := fun i p => 1000 + 10 * (i : Int) + (p : Int)
  expbuf_ret := fun _ _ => 0
  expbuf_fd := fun i p => 50 + 10 * (i : Int) + (p : Int)
  qbuf_ret := fun _ => 0
  streamon_ret := 0
  streamoff_ret := 0
  reqbufs_zero_ret := 0
  errno := 5
  device_fd := 3
  has_mplane := true
  has_streaming := true
  subdev_fd := 4
  setup_disp_ret := 0
  quit := fun _ => false
  dq_ret := fun _ => 0
  dq_idx := fun _ => 0
  draw_ret := fun _ => 0
  requeue_ret := fun _ => 0

/-- Pool state after a mapping failure at buffer 2, plane 0, of a 4-buffer /
2-plane pool without DMA export: the DMA descriptors were preset to -1 by
`capture_setup`, buffers 0 and 1 are fully mapped, buffer 2 plane 0 holds
the stored `MAP_FAILED` result, and the remaining planes were never mapped
(still 0 from the zero-initialized context in `main`). -/
def capAfterMapFailure : CapCtx where
  num_buf := 4
  num_planes := 2
  dma_buf_fd := fun i p => if i < 4 ∧ p < 2 then -1 else 0
  addr := fun i p =>
    if i < 2 ∧ p < 2 then 1000 + 10 * (i : Int) + (p : Int)
    else if i = 2 ∧ p = 0 then MAP_FAILED else 0
  length := fun _ _ => 100

/-- C2: after the partial-setup failure state `capAfterMapFailure`, the
first `unmap_buffers` call does behave as claimed (unmaps exactly the four
mapped planes of buffers 0 and 1, skips the never-mapped and failed planes
of buffers 2 and 3, closes nothing, returns 0) — but the claimed idempotence
fails: the second call performs the same four `munmap` operations again,
because the source never resets `addr[i][p]` after `munmap` (only
`dma_buf_fd` is invalidated), so the per-plane validity guard still passes. -/
theorem unmap_buffers_second_call_repeats_munmap :
    (unmap_buffers envOk capAfterMapFailure).2.1 =
      [Ev.munmap 1000 100, Ev.munmap 1001 100, Ev.munmap 1010 100,
       Ev.munmap 1011 100, Ev.reqbufs 0] ∧
    (unmap_buffers envOk capAfterMapFailure).2.2 = 0 ∧
    (unmap_buffers envOk (unmap_buffers envOk capAfterMapFailure).1).2.1 =
      [Ev.munmap 1000 100, Ev.munmap 1001 100, Ev.munmap 1010 100,
       Ev.munmap 1011 100, Ev.reqbufs 0] ∧
    (unmap_buffers envOk (unmap_buffers envOk capAfterMapFailure).1).2.2 = 0 := by
  decide

/-! ## Claim theorems for the capture/render loop -/

/-- C5: in a live loop iteration `k` (loop condition passed, dequeue
succeeded), a positive draw result skips the requeue of the dequeued buffer
and terminates the loop normally (return 0, no further events), while a zero
draw result requeues exactly the buffer just dequeued and the loop proceeds
to iteration `k + 1`. -/
theorem draw_exit_skips_requeue_continue_requeues
    (env : Env) (cap : CapCtx) (k fuel : Nat) (evs : List Ev)
    (hq : env.quit k = false) (hdq : 0 ≤ env.dq_ret k) :
    (0 < env.draw_ret k →
      cdy_loop env cap k (fuel + 1) 0 evs =
        some (0, evs ++ [Ev.dqbuf (env.dq_idx k), Ev.draw (env.draw_ret k)])) ∧
    (env.draw_ret k = 0 →
      cdy_loop env cap k (fuel + 1) 0 evs =
        cdy_loop env cap (k + 1) fuel (env.requeue_ret k)
          (evs ++ [Ev.dqbuf (env.dq_idx k), Ev.draw 0, Ev.qbuf (env.dq_idx k)])) := by
  constructor
  · intro hd
    simp [cdy_loop, hq, not_lt.mpr hdq, not_lt.mpr (le_of_lt hd), hd]
  · intro hd
    simp [cdy_loop, hq, not_lt.mpr hdq, hd]

/-- C5 witness: the requeue-asymmetry theorem at a concrete environment
whose renderer requests Exit at iteration 0. -/
theorem draw_exit_witness :
    (0 < ({ envOk with draw_ret := fun _ => 1 } : Env).draw_ret 0 →
      cdy_loop { envOk with draw_ret := fun _ => 1 } capAfterMapFailure 0 (3 + 1) 0 [] =
        some (0, [] ++ [Ev.dqbuf (({ envOk with draw_ret := fun _ => 1 } : Env).dq_idx 0),
                        Ev.draw (({ envOk with draw_ret := fun _ => 1 } : Env).draw_ret 0)])) ∧
    (({ envOk with draw_ret := fun _ => 1 } : Env).draw_ret 0 = 0 →
      cdy_loop { envOk with draw_ret := fun _ => 1 } capAfterMapFailure 0 (3 + 1) 0 [] =
        cdy_loop { envOk with draw_ret := fun _ => 1 } capAfterMapFailure (0 + 1) 3
          (({ envOk with draw_ret := fun _ => 1 } : Env).requeue_ret 0)
          ([] ++ [Ev.dqbuf (({ envOk with draw_ret := fun _ => 1 } : Env).dq_idx 0),
                  Ev.draw 0,
                  Ev.qbuf (({ envOk with draw_ret := fun _ => 1 } : Env).dq_idx 0)])) :=
  draw_exit_skips_requeue_continue_requeues
    { envOk with draw_ret := fun _ => 1 } capAfterMapFailure 0 3 []
    (by decide) (by decide)

/-- C6: when the externally-set stop flag is observed at the top of
iteration `k`, the loop exits immediately — returning 0 and emitting no
dequeue for that iteration — and the signal handler itself only sets the
boolean flag, leaving the capture context (buffers, descriptors) untouched. -/
theorem stop_flag_polled_before_dequeue_and_handler_only_sets_flag
    (env : Env) (cap : CapCtx) (k fuel : Nat) (evs : List Ev) (g : Prog)
    (hq : env.quit k = true) :
    cdy_loop env cap k (fuel + 1) 0 evs = some (0, evs) ∧
    (signal_exit g).signal_quit = true ∧
    (signal_exit g).cap = g.cap := by
  refine ⟨?_, rfl, rfl⟩
  simp [cdy_loop, hq]

/-- C6 witness: the stop-flag theorem at an environment whose flag is set
from the start; the loop exits with an empty trace. -/
theorem stop_flag_witness :
    cdy_loop { envOk with quit := fun _ => true } capAfterMapFailure 0 (4 + 1) 0 [] =
      some (0, []) ∧
    (signal_exit ⟨false, capAfterMapFailure⟩).signal_quit = true ∧
    (signal_exit ⟨false, capAfterMapFailure⟩).cap =
      (⟨false, capAfterMapFailure⟩ : Prog).cap :=
  stop_flag_polled_before_dequeue_and_handler_only_sets_flag
    { envOk with quit := fun _ => true } capAfterMapFailure 0 4 []
    ⟨false, capAfterMapFailure⟩ (by decide)

/-! ## Single-consumer invariant (C9) -/

/-- Is this event a dequeue? -/
def isDq : Ev → Bool
  | Ev.dqbuf _ => true
  | _ => false

/-- Is this event a (re)queue? -/
def isQb : Ev → Bool
  | Ev.qbuf _ => true
  | _ => false

/-- Number of dequeue events in a trace. -/
def dqCount (l : List Ev) : Nat := (l.filter isDq).length

/-- Number of queue events in a trace. -/
def qbCount (l : List Ev) : Nat := (l.filter isQb).length

theorem dqCount_append (l₁ l₂ : List Ev) :
    dqCount (l₁ ++ l₂) = dqCount l₁ + dqCount l₂ := by
  simp [dqCount, List.filter_append]

theorem qbCount_append (l₁ l₂ : List Ev) :
    qbCount (l₁ ++ l₂) = qbCount l₁ + qbCount l₂ := by
  simp [qbCount, List.filter_append]

theorem dqCount_dq (i : Nat) : dqCount [Ev.dqbuf i] = 1 := rfl

theorem qbCount_dq (i : Nat) : qbCount [Ev.dqbuf i] = 0 := rfl

theorem dqCount_draw (r : Int) : dqCount [Ev.draw r] = 0 := rfl

theorem qbCount_draw (r : Int) : qbCount [Ev.draw r] = 0 := rfl

theorem dqCount_qb (i : Nat) : dqCount [Ev.qbuf i] = 0 := rfl

theorem qbCount_qb (i : Nat) : qbCount [Ev.qbuf i] = 1 := rfl

/-- A trace never holds more than one application-owned buffer: every
prefix has at most one more dequeue than queue events. -/
def PrefixBound (l : List Ev) : Prop :=
  ∀ t, t <+: l → dqCount t ≤ qbCount t + 1

theorem prefix_snoc_cases {α : Type} {t l : List α} {a : α}
    (h : t <+: l ++ [a]) : t <+: l ∨ t = l ++ [a] := by
  obtain ⟨s, hs⟩ := h
  induction s using List.reverseRecOn with
  | nil =>
    right
    simpa using hs
  | append_singleton s b _ =>
    left
    rw [← List.append_assoc] at hs
    have h2 : t ++ s = l := by
      have h3 := congrArg List.dropLast hs
      simpa using h3
    exact ⟨s, h2⟩

theorem prefixBound_snoc {l : List Ev} {e : Ev} (hp : PrefixBound l)
    (he : dqCount (l ++ [e]) ≤ qbCount (l ++ [e]) + 1) :
    PrefixBound (l ++ [e]) := by
  intro t ht
  rcases prefix_snoc_cases ht with h | h
  · exact hp t h
  · rw [h]; exact he

/-- Invariant propagation through the steady-state loop: starting from a
balanced trace whose prefixes are in bounds, any terminating run keeps all
prefixes in bounds. -/
theorem cdy_loop_prefix_bound (env : Env) (cap : CapCtx) :
    ∀ (fuel k : Nat) (ret : Int) (evs : List Ev) (r : Int) (tr : List Ev),
      PrefixBound evs → dqCount evs = qbCount evs →
      cdy_loop env cap k fuel ret evs = some (r, tr) → PrefixBound tr := by
  intro fuel
  induction fuel with
  | zero =>
    intro k ret evs r tr _ _ h
    exact absurd h (by simp [cdy_loop])
  | succ n ih =>
    intro k ret evs r tr hp hb h
    rw [cdy_loop] at h
    by_cases h0 : ret ≠ 0 ∨ env.quit k = true
    · rw [if_pos h0] at h
      obtain ⟨-, h2⟩ := Prod.mk.injEq .. ▸ Option.some.injEq .. ▸ h
      exact h2 ▸ hp
    · rw [if_neg h0] at h
      have hp1 : PrefixBound (evs ++ [Ev.dqbuf (env.dq_idx k)]) := by
        apply prefixBound_snoc hp
        simp only [dqCount_append, qbCount_append, dqCount_dq, qbCount_dq]
        omega
      by_cases hdq : env.dq_ret k < 0
      · rw [if_pos hdq] at h
        obtain ⟨-, h2⟩ := Prod.mk.injEq .. ▸ Option.some.injEq .. ▸ h
        exact h2 ▸ hp1
      · rw [if_neg hdq] at h
        have hp2 : PrefixBound ((evs ++ [Ev.dqbuf (env.dq_idx k)]) ++
            [Ev.draw (env.draw_ret k)]) := by
          apply prefixBound_snoc hp1
          simp only [dqCount_append, qbCount_append, dqCount_dq, qbCount_dq,
            dqCount_draw, qbCount_draw]
          omega
        by_cases hdr : env.draw_ret k < 0
        · rw [if_pos hdr] at h
          obtain ⟨-, h2⟩ := Prod.mk.injEq .. ▸ Option.some.injEq .. ▸ h
          exact h2 ▸ hp2
        · rw [if_neg hdr] at h
          by_cases hdp : env.draw_ret k > 0
          · rw [if_pos hdp] at h
            obtain ⟨-, h2⟩ := Prod.mk.injEq .. ▸ Option.some.injEq .. ▸ h
            exact h2 ▸ hp2
          · rw [if_neg hdp] at h
            apply ih _ _ _ _ _ _ _ h
            · apply prefixBound_snoc hp2
              simp only [dqCount_append, qbCount_append, dqCount_dq, qbCount_dq,
                dqCount_draw, qbCount_draw, dqCount_qb, qbCount_qb]
              omega
            · simp only [dqCount_append, qbCount_append, dqCount_dq, qbCount_dq,
                dqCount_draw, qbCount_draw, dqCount_qb, qbCount_qb]
              omega

/-- C9: single-consumer invariant — in any terminating run of the
dequeue/draw/requeue loop, every prefix of the emitted trace contains at
most one more dequeue than requeue event, i.e. at most one buffer is in the
owned-by-application state at any point; a second buffer is never dequeued
before the first is requeued or abandoned at loop exit. -/
theorem capture_loop_single_consumer (env : Env) (cap : CapCtx) (fuel : Nat)
    (r : Int) (tr t : List Ev)
    (h : cdy_loop env cap 0 fuel 0 [] = some (r, tr))
    (hpre : t <+: tr) : dqCount t ≤ qbCount t + 1 :=
  cdy_loop_prefix_bound env cap fuel 0 0 [] r tr
    (by intro s hs; rw [List.prefix_nil.mp hs]; decide) rfl h t hpre

/-- C9 witness: the invariant read off a concrete two-iteration run
(dequeues of buffers 0 and 1, each requeued, then stop-flag exit), at the
execution point just after the second dequeue. -/
theorem capture_loop_single_consumer_witness :
    dqCount [Ev.dqbuf 0, Ev.draw 0, Ev.qbuf 0, Ev.dqbuf 1] ≤
      qbCount [Ev.dqbuf 0, Ev.draw 0, Ev.qbuf 0, Ev.dqbuf 1] + 1 :=
  capture_loop_single_consumer
    { envOk with quit := fun k => decide (2 ≤ k), dq_idx := fun k => k }
    capAfterMapFailure 5 0
    [Ev.dqbuf 0, Ev.draw 0, Ev.qbuf 0, Ev.dqbuf 1, Ev.draw 0, Ev.qbuf 1]
    [Ev.dqbuf 0, Ev.draw 0, Ev.qbuf 0, Ev.dqbuf 1]
    (by decide) (by decide)

/-! ## Granted-count accounting (C4) -/

/-- Events emitted by a fully successful `map_buffers` over `M` buffers of
2 planes, without DMA export. -/
def mapTrace (M : Nat) : List Ev :=
  (List.range M).flatMap fun i =>
    Ev.querybuf i :: (List.range 2).map fun p => Ev.mmap_call i p

/-- Events emitted by a fully successful `queue_buffers` over `M` buffers. -/
def queueTrace (M : Nat) : List Ev :=
  (List.range M).map Ev.qbuf

/-- Events emitted by `unmap_buffers` on a fully mapped `M`-buffer pool of
2 planes whose DMA descriptors are all invalid. -/
def releaseTrace (env : Env) (M : Nat) : List Ev :=
  (((List.range M).flatMap fun i => (List.range 2).map fun p => (i, p)).map
    fun ip => Ev.munmap (env.mmap_addr ip.1 ip.2) (env.plane_len ip.1 ip.2)) ++
  [Ev.reqbufs 0]

/-- Behaviour of the per-plane mapping loop when every `mmap` succeeds and
no DMA export is requested: all planes in `ps` of buffer `i` get their
address and length recorded, nothing else changes, no early return. -/
theorem map_planes_success (env : Env) (i : Nat) (ps : List Nat) :
    ∀ (cap : CapCtx) (evs : List Ev),
      (∀ p ∈ ps, env.mmap_addr i p ≠ MAP_FAILED) →
      (map_planes env cap false i ps evs).2.1 =
        evs ++ ps.map (fun p => Ev.mmap_call i p) ∧
      (map_planes env cap false i ps evs).2.2 = none ∧
      (map_planes env cap false i ps evs).1.num_buf = cap.num_buf ∧
      (map_planes env cap false i ps evs).1.num_planes = cap.num_planes ∧
      (∀ i' p', (map_planes env cap false i ps evs).1.dma_buf_fd i' p' =
        cap.dma_buf_fd i' p') ∧
      (∀ i' p', (map_planes env cap false i ps evs).1.addr i' p' =
        if i' = i ∧ p' ∈ ps then env.mmap_addr i p' else cap.addr i' p') ∧
      (∀ i' p', (map_planes env cap false i ps evs).1.length i' p' =
        if i' = i ∧ p' ∈ ps then env.plane_len i p' else cap.length i' p') := by
  induction ps with
  | nil =>
    intro cap evs _
    refine ⟨by simp [map_planes], rfl, rfl, rfl, fun _ _ => rfl, ?_, ?_⟩ <;>
      · intro i' p'
        simp [map_planes]
  | cons p rest ih =>
    intro cap evs h
    have hp : env.mmap_addr i p ≠ MAP_FAILED := h p (by simp)
    obtain ⟨ht, hr, hnb, hnp, hd, ha, hl⟩ :=
      ih { cap with
            length := fun i' p' =>
              if i' = i ∧ p' = p then env.plane_len i p else cap.length i' p',
            addr := fun i' p' =>
              if i' = i ∧ p' = p then env.mmap_addr i p else cap.addr i' p' }
        (evs ++ [Ev.mmap_call i p]) (fun q hq => h q (by simp [hq]))
    refine ⟨?_, ?_, ?_, ?_, ?_, ?_, ?_⟩
    · simp only [map_planes, if_neg hp, Bool.false_eq_true, if_false, ht]
      simp
    · simp only [map_planes, if_neg hp, Bool.false_eq_true, if_false, hr]
    · simp only [map_planes, if_neg hp, Bool.false_eq_true, if_false, hnb]
    · simp only [map_planes, if_neg hp, Bool.false_eq_true, if_false, hnp]
    · intro i' p'
      simp only [map_planes, if_neg hp, Bool.false_eq_true, if_false, hd i' p']
    · intro i' p'
      simp only [map_planes, if_neg hp, Bool.false_eq_true, if_false, ha i' p']
      by_cases h1 : i' = i <;> by_cases h2 : p' ∈ rest <;> by_cases h3 : p' = p <;>
        simp [h1, h2, h3, List.mem_cons]
    · intro i' p'
      simp only [map_planes, if_neg hp, Bool.false_eq_true, if_false, hl i' p']
      by_cases h1 : i' = i <;> by_cases h2 : p' ∈ rest <;> by_cases h3 : p' = p <;>
        simp [h1, h2, h3, List.mem_cons]

/-- Behaviour of the per-buffer mapping loop on a 2-plane context when
every query and `mmap` succeeds and no DMA export is requested. -/
theorem map_bufs_loop_success (env : Env) (is : List Nat)
    (hmm : ∀ i p, env.mmap_addr i p ≠ MAP_FAILED) :
    ∀ (cap : CapCtx) (evs : List Ev),
      cap.num_planes = 2 →
      (∀ i ∈ is, 0 ≤ env.querybuf_ret i) →
      (map_bufs_loop env cap false is evs).2.1 =
        evs ++ is.flatMap (fun i =>
          Ev.querybuf i :: (List.range 2).map (fun p => Ev.mmap_call i p)) ∧
      (map_bufs_loop env cap false is evs).2.2 = 0 ∧
      (map_bufs_loop env cap false is evs).1.num_buf = cap.num_buf ∧
      (map_bufs_loop env cap false is evs).1.num_planes = 2 ∧
      (∀ i' p', (map_bufs_loop env cap false is evs).1.dma_buf_fd i' p' =
        cap.dma_buf_fd i' p') ∧
      (∀ i' p', (map_bufs_loop env cap false is evs).1.addr i' p' =
        if i' ∈ is ∧ p' ∈ List.range 2 then env.mmap_addr i' p'
        else cap.addr i' p') ∧
      (∀ i' p', (map_bufs_loop env cap false is evs).1.length i' p' =
        if i' ∈ is ∧ p' ∈ List.range 2 then env.plane_len i' p'
        else cap.length i' p') := by
  induction is with
  | nil =>
    intro cap evs hnp _
    refine ⟨by simp [map_bufs_loop], rfl, rfl, hnp, fun _ _ => rfl, ?_, ?_⟩ <;>
      · intro i' p'
        simp [map_bufs_loop]
  | cons i rest ih =>
    intro cap evs hnp hq
    have hqi : ¬ env.querybuf_ret i < 0 := not_lt.mpr (hq i (by simp))
    obtain ⟨ht, hr, hnb, hnp2, hd, ha, hl⟩ :=
      map_planes_success env i (List.range 2) cap
        (evs ++ [Ev.querybuf i]) (fun p _ => hmm i p)
    obtain ⟨ht2, hr2, hnb2, hnp3, hd2, ha2, hl2⟩ :=
      ih (map_planes env cap false i (List.range 2)
            (evs ++ [Ev.querybuf i])).1
        (map_planes env cap false i (List.range 2)
            (evs ++ [Ev.querybuf i])).2.1
        (by rw [hnp2]; exact hnp) (fun j hj => hq j (by simp [hj]))
    refine ⟨?_, ?_, ?_, ?_, ?_, ?_, ?_⟩
    · simp only [map_bufs_loop, hnp, if_neg hqi, hr]
      rw [ht2, ht]
      simp
    · simp only [map_bufs_loop, hnp, if_neg hqi, hr, hr2]
    · simp only [map_bufs_loop, hnp, if_neg hqi, hr, hnb2, hnb]
    · simp only [map_bufs_loop, hnp, if_neg hqi, hr, hnp3]
    · intro i' p'
      simp only [map_bufs_loop, hnp, if_neg hqi, hr, hd2 i' p', hd i' p']
    · intro i' p'
      simp only [map_bufs_loop, hnp, if_neg hqi, hr, ha2 i' p', ha i' p']
      by_cases h1 : i' = i <;> by_cases h2 : i' ∈ rest <;>
        by_cases h3 : p' ∈ List.range 2 <;>
        simp [h1, h2, h3, List.mem_cons]
    · intro i' p'
      simp only [map_bufs_loop, hnp, if_neg hqi, hr, hl2 i' p', hl i' p']
      by_cases h1 : i' = i <;> by_cases h2 : i' ∈ rest <;>
        by_cases h3 : p' ∈ List.range 2 <;>
        simp [h1, h2, h3, List.mem_cons]

/-- Behaviour of the queueing loop when every `VIDIOC_QBUF` returns 0. -/
theorem queue_loop_success (env : Env) (is : List Nat)
    (hq : ∀ i ∈ is, env.qbuf_ret i = 0) :
    ∀ evs : List Ev,
      queue_loop env is evs 0 = (evs ++ is.map Ev.qbuf, 0) := by
  induction is with
  | nil => intro evs; simp [queue_loop]
  | cons i rest ih =>
    intro evs
    have h0 : env.qbuf_ret i = 0 := hq i (by simp)
    have := ih (fun j hj => hq j (by simp [hj])) (evs ++ [Ev.qbuf i])
    simp only [queue_loop, h0]
    norm_num
    rw [this]
    simp

/-- Behaviour of the `unmap_buffers` plane loop on a pool whose DMA
descriptors are all invalid and whose listed planes all hold valid mapped
addresses: the state is unchanged and exactly one `munmap` per listed pair
is emitted. -/
theorem unmap_fold_valid (L : List (Nat × Nat)) :
    ∀ (cap : CapCtx) (evs : List Ev),
      (∀ ip ∈ L, cap.dma_buf_fd ip.1 ip.2 < 0 ∧
        cap.addr ip.1 ip.2 ≠ 0 ∧ cap.addr ip.1 ip.2 ≠ MAP_FAILED) →
      L.foldl (fun acc ip =>
          let s := unmap_plane acc.1 ip.1 ip.2
          (s.1, acc.2 ++ s.2)) (cap, evs) =
        (cap, evs ++ L.map fun ip =>
          Ev.munmap (cap.addr ip.1 ip.2) (cap.length ip.1 ip.2)) := by
  induction L with
  | nil => intro cap evs _; simp
  | cons ip rest ih =>
    intro cap evs h
    obtain ⟨hfd, ha0, haf⟩ := h ip (by simp)
    have hstep : unmap_plane cap ip.1 ip.2 =
        (cap, [Ev.munmap (cap.addr ip.1 ip.2) (cap.length ip.1 ip.2)]) := by
      simp [unmap_plane, not_le.mpr hfd, ha0, haf]
    simp only [List.foldl_cons, hstep]
    rw [ih cap (evs ++ [Ev.munmap (cap.addr ip.1 ip.2) (cap.length ip.1 ip.2)])
      (fun jp hj => h jp (by simp [hj]))]
    simp

/-- `unmap_buffers` on a fully mapped pool of `M` granted 2-plane buffers
with invalid DMA descriptors: it unmaps exactly the `M * 2` recorded plane
mappings and issues the zero-count release request. -/
theorem unmap_buffers_full_pool (env : Env) (c : CapCtx) (M : Nat)
    (hnb : c.num_buf = M) (hnp : c.num_planes = 2)
    (hdv : ∀ i p, i < M → p < 2 → c.dma_buf_fd i p < 0)
    (hav : ∀ i p, i < M → p < 2 →
      c.addr i p = env.mmap_addr i p ∧ c.length i p = env.plane_len i p)
    (hok : ∀ i p, env.mmap_addr i p ≠ 0 ∧ env.mmap_addr i p ≠ MAP_FAILED) :
    (unmap_buffers env c).2.1 = releaseTrace env M := by
  have hpp : planePairs c =
      (List.range M).flatMap fun i => (List.range 2).map fun p => (i, p) := by
    unfold planePairs
    rw [hnb, hnp]
  have hv : ∀ ip ∈ ((List.range M).flatMap fun i =>
      (List.range 2).map fun p => (i, p)),
      c.dma_buf_fd ip.1 ip.2 < 0 ∧
      c.addr ip.1 ip.2 ≠ 0 ∧ c.addr ip.1 ip.2 ≠ MAP_FAILED := by
    intro ip hip
    simp only [List.mem_flatMap, List.mem_map, List.mem_range] at hip
    obtain ⟨i, hi, p, hp2, he⟩ := hip
    subst he
    exact ⟨hdv i p hi hp2,
      (hav i p hi hp2).1 ▸ (hok i p).1,
      (hav i p hi hp2).1 ▸ (hok i p).2⟩
  simp only [unmap_buffers, hpp]
  rw [unmap_fold_valid _ c [] hv]
  simp only [List.nil_append, releaseTrace]
  congr 1
  apply List.map_congr_left
  intro ip hip
  simp only [List.mem_flatMap, List.mem_map, List.mem_range] at hip
  obtain ⟨i, hi, p, hp2, he⟩ := hip
  subst he
  rw [(hav i p hi hp2).1, (hav i p hi hp2).2]

/-- C4: under a device that grants `M = env.granted ≤ N` buffers and
otherwise succeeds, `capture_setup` records exactly `M` as the pool size;
the emitted trace shows exactly buffers `0..M-1` queried, mapped
(2 planes each) and queued — the requested count `N` appears only inside
the allocation request event itself, so `N` is never used after
allocation; the granted buffers hold the mapped addresses with their DMA
descriptors preset invalid; and a subsequent `unmap_buffers` releases
exactly those `M` buffers' planes followed by the zero-count release
request. -/
theorem capture_setup_uses_granted_count (env : Env) (cap : CapCtx) (N : Nat)
    (_hMN : env.granted ≤ N)
    (hfmt : 0 ≤ env.s_fmt_ret) (hreq : 0 ≤ env.reqbufs_ret)
    (hqb : ∀ i, 0 ≤ env.querybuf_ret i)
    (hmm : ∀ i p, env.mmap_addr i p ≠ 0 ∧ env.mmap_addr i p ≠ MAP_FAILED)
    (hq : ∀ i, env.qbuf_ret i = 0) :
    (capture_setup env cap N false).1 = Outcome.ret env.streamon_ret ∧
    (capture_setup env cap N false).2.1.num_buf = env.granted ∧
    (capture_setup env cap N false).2.2 =
      [Ev.s_fmt, Ev.reqbufs N] ++ mapTrace env.granted ++
        queueTrace env.granted ++ [Ev.streamon] ∧
    (∀ i p, i < env.granted → p < 2 →
      (capture_setup env cap N false).2.1.addr i p = env.mmap_addr i p ∧
      (capture_setup env cap N false).2.1.dma_buf_fd i p = -1) ∧
    (unmap_buffers env (capture_setup env cap N false).2.1).2.1 =
      releaseTrace env env.granted := by
  have hfmt' : ¬ env.s_fmt_ret < 0 := not_lt.mpr hfmt
  have hreq' : ¬ env.reqbufs_ret < 0 := not_lt.mpr hreq
  obtain ⟨ht, hr, hnb, hnp, hd, ha, hl⟩ :=
    map_bufs_loop_success env (List.range env.granted)
      (fun i p => (hmm i p).2)
      (grantCtx env (fmtCtx cap)) [] rfl (fun i _ => hqb i)
  have hm : map_buffers env (grantCtx env (fmtCtx cap)) false =
      map_bufs_loop env (grantCtx env (fmtCtx cap)) false
        (List.range env.granted) [] := rfl
  have hnb' : (map_bufs_loop env (grantCtx env (fmtCtx cap)) false
      (List.range env.granted) []).1.num_buf = env.granted := hnb
  have ht' : (map_bufs_loop env (grantCtx env (fmtCtx cap)) false
      (List.range env.granted) []).2.1 = mapTrace env.granted := by
    rw [ht]
    simp [mapTrace]
  have hqs : queue_buffers env env.granted = (queueTrace env.granted, 0) := by
    unfold queue_buffers queueTrace
    rw [queue_loop_success env (List.range env.granted) (fun i _ => hq i) []]
    simp
  have hsetup : capture_setup env cap N false =
      (Outcome.ret env.streamon_ret,
       (map_bufs_loop env (grantCtx env (fmtCtx cap)) false
         (List.range env.granted) []).1,
       [Ev.s_fmt, Ev.reqbufs N] ++ mapTrace env.granted ++
         queueTrace env.granted ++ [Ev.streamon]) := by
    simp only [capture_setup, if_neg hfmt', if_neg hreq', hm, hr, hnb', hqs, ht']
    simp
  refine ⟨?_, ?_, ?_, ?_, ?_⟩
  · simp only [hsetup]
  · simp only [hsetup]
    exact hnb'
  · simp only [hsetup]
  · intro i p hi hp2
    simp only [hsetup]
    refine ⟨?_, ?_⟩
    · rw [ha i p]
      simp [List.mem_range, hi, hp2]
    · rw [hd i p]
      simp [grantCtx, fmtCtx, hi, hp2]
  · simp only [hsetup]
    apply unmap_buffers_full_pool env _ env.granted hnb' hnp
    · intro i p hi hp2
      rw [hd i p]
      simp [grantCtx, fmtCtx, hi, hp2]
    · intro i p hi hp2
      rw [ha i p, hl i p]
      simp [List.mem_range, hi, hp2]
    · exact hmm

/-- The zero-initialized capture context produced by `memset` in `main`. -/
def capZero : CapCtx :=
  ⟨0, 0, fun _ _ => 0, fun _ _ => 0, fun _ _ => 0⟩

/-- A successful environment granting only 3 of the requested buffers. -/
def envGrant3 : Env := { envOk with granted := 3 }

/-- C4 witness: the granted-count theorem at a request of 4 buffers of
which the device grants 3, from the zeroed startup context. -/
theorem capture_setup_uses_granted_count_witness :
    (capture_setup envGrant3 capZero 4 false).1 =
      Outcome.ret envGrant3.streamon_ret ∧
    (capture_setup envGrant3 capZero 4 false).2.1.num_buf = envGrant3.granted ∧
    (capture_setup envGrant3 capZero 4 false).2.2 =
      [Ev.s_fmt, Ev.reqbufs 4] ++ mapTrace envGrant3.granted ++
        queueTrace envGrant3.granted ++ [Ev.streamon] ∧
    (∀ i p, i < envGrant3.granted → p < 2 →
      (capture_setup envGrant3 capZero 4 false).2.1.addr i p =
        envGrant3.mmap_addr i p ∧
      (capture_setup envGrant3 capZero 4 false).2.1.dma_buf_fd i p = -1) ∧
    (unmap_buffers envGrant3 (capture_setup envGrant3 capZero 4 false).2.1).2.1 =
      releaseTrace envGrant3 envGrant3.granted :=
  capture_setup_uses_granted_count envGrant3 capZero 4
    (by decide) (by decide) (by decide)
    (fun _ => le_refl 0)
    (fun i p =>
      ⟨by show (1000 + 10 * (i : Int) + (p : Int)) ≠ 0; omega,
       by show (1000 + 10 * (i : Int) + (p : Int)) ≠ -1; omega⟩)
    (fun _ => rfl)

/-! ## Error unwinding and teardown (C3) -/

/-- An environment whose `VIDIOC_S_FMT` request fails. -/
def envFmtFail : Env := { envOk with s_fmt_ret := -1 }

/-- C3 counterexample: a fatal format-negotiation failure during setup does
NOT unwind to `capture_and_display`: `capture_setup` calls `exit(-errno)`
directly, so the session ends with a process exit whose trace contains no
stream stop, no unmap, and no kernel buffer release — no teardown ran. -/
theorem format_error_exits_process_without_teardown :
    (capture_and_display envFmtFail capZero 4 false 10).map
      (fun o => (o.1, o.2.2)) = some (Outcome.exited (-5), [Ev.s_fmt]) ∧
    Ev.streamoff ∉ [Ev.s_fmt] ∧ (Ev.reqbufs 0) ∉ [Ev.s_fmt] := by
  decide

/-- C3 (amended): once setup gets past the format and allocation requests
(the stages whose failures call `exit()`), every terminating session — no
matter which later stage failed: mapping, queueing, stream start, renderer
setup, dequeue, draw or requeue — returns normally from
`capture_and_display` with a trace that ends in a full `capture_shutdown`
(stop stream, then unmap, then zero-count release); and a requeue failure
at loop iteration `k` is fatal: the loop stops right after it, emitting no
further dequeue. -/
theorem fatal_errors_unwind_and_teardown_runs (env : Env) (cap : CapCtx)
    (N fuel : Nat) (d : Bool) (oc : Outcome) (tr : List Ev)
    (k f : Nat) (evs : List Ev)
    (hdev : 0 ≤ get_device env) (hsub : 0 ≤ get_subdevice env)
    (hfmt : 0 ≤ env.s_fmt_ret) (hreq : 0 ≤ env.reqbufs_ret)
    (hout : (capture_and_display env cap N d fuel).map
      (fun o => (o.1, o.2.2)) = some (oc, tr))
    (hqk : env.quit k = false) (hdqk : 0 ≤ env.dq_ret k)
    (hdrk : env.draw_ret k = 0) (hrqk : env.requeue_ret k ≠ 0) :
    (∃ r, oc = Outcome.ret r) ∧
    (∃ t c, tr = t ++ shutdownTrace env c) ∧
    cdy_loop env cap k (f + 2) 0 evs =
      some (0, evs ++ [Ev.dqbuf (env.dq_idx k), Ev.draw 0, Ev.qbuf (env.dq_idx k)]) := by
  have hsr : ∃ r, (capture_setup env cap N d).1 = Outcome.ret r := by
    simp only [capture_setup, if_neg (not_lt.mpr hfmt), if_neg (not_lt.mpr hreq)]
    split
    · exact ⟨_, rfl⟩
    · split
      · exact ⟨_, rfl⟩
      · exact ⟨_, rfl⟩
  obtain ⟨r, hr⟩ := hsr
  have hAB : (∃ r, oc = Outcome.ret r) ∧ (∃ t c, tr = t ++ shutdownTrace env c) := by
    simp only [capture_and_display, if_neg (not_lt.mpr hdev),
      if_neg (not_lt.mpr hsub), hr] at hout
    by_cases hr0 : r = 0
    · rw [if_neg (by simp [hr0])] at hout
      cases hdisp : capture_display_yuv env (capture_setup env cap N d).2.1 fuel with
      | none => rw [hdisp] at hout; simp at hout
      | some dr =>
        rw [hdisp] at hout
        simp only [Option.map_some'] at hout
        obtain ⟨h1, h2⟩ := Prod.mk.injEq .. ▸ Option.some.inj hout
        exact ⟨⟨dr.1, h1.symm⟩, ⟨(capture_setup env cap N d).2.2 ++ dr.2,
          (capture_setup env cap N d).2.1, h2.symm⟩⟩
    · rw [if_pos hr0] at hout
      simp only [Option.map_some'] at hout
      obtain ⟨h1, h2⟩ := Prod.mk.injEq .. ▸ Option.some.inj hout
      exact ⟨⟨r, h1.symm⟩, ⟨(capture_setup env cap N d).2.2,
        (capture_setup env cap N d).2.1, h2.symm⟩⟩
  refine ⟨hAB.1, hAB.2, ?_⟩
  show cdy_loop env cap k ((f + 1) + 1) 0 evs = _
  rw [cdy_loop]
  rw [if_neg (by simp [hqk]), if_neg (not_lt.mpr hdqk), hdrk]
  rw [if_neg (lt_irrefl 0), if_neg (lt_irrefl 0)]
  rw [cdy_loop]
  rw [if_pos (Or.inl hrqk)]
  simp

/-- An environment whose requeue ioctl always fails. -/
def envRequeueFail : Env := { envOk with requeue_ret := fun _ => -1 }

/-- C3 witness: the unwind-and-teardown theorem at a session whose requeue
fails on the very first loop iteration; the session returns normally and
its trace ends in the stop-stream / unmap / release teardown events. -/
theorem fatal_errors_unwind_witness :
    (∃ r, Outcome.ret 0 = Outcome.ret r) ∧
    (∃ t c,
      [Ev.s_fmt, Ev.reqbufs 4,
       Ev.querybuf 0, Ev.mmap_call 0 0, Ev.mmap_call 0 1,
       Ev.querybuf 1, Ev.mmap_call 1 0, Ev.mmap_call 1 1,
       Ev.querybuf 2, Ev.mmap_call 2 0, Ev.mmap_call 2 1,
       Ev.querybuf 3, Ev.mmap_call 3 0, Ev.mmap_call 3 1,
       Ev.qbuf 0, Ev.qbuf 1, Ev.qbuf 2, Ev.qbuf 3, Ev.streamon,
       Ev.render_setup, Ev.dqbuf 0, Ev.draw 0, Ev.qbuf 0,
       Ev.streamoff,
       Ev.munmap 1000 100, Ev.munmap 1001 100, Ev.munmap 1010 100,
       Ev.munmap 1011 100, Ev.munmap 1020 100, Ev.munmap 1021 100,
       Ev.munmap 1030 100, Ev.munmap 1031 100, Ev.reqbufs 0] =
        t ++ shutdownTrace envRequeueFail c) ∧
    cdy_loop envRequeueFail capZero 0 (3 + 2) 0 [] =
      some (0, [] ++ [Ev.dqbuf (envRequeueFail.dq_idx 0), Ev.draw 0,
                      Ev.qbuf (envRequeueFail.dq_idx 0)]) :=
  fatal_errors_unwind_and_teardown_runs envRequeueFail capZero 4 10 false
    (Outcome.ret 0) _ 0 3 []
    (by decide) (by decide) (by decide) (by decide) (by decide)
    (by decide) (by decide) (by decide) (by decide)

end CaptureModel
